import Mathlib

/-!
Verification development for the memos-mcp server (src/server.py).

The file shallowly embeds the request-shaping layer of the server: the
JSON argument/payload model, the per-operation request builders, the
identifier normalizer, the header construction, the tool-call dispatcher
with its argument validation and error rendering, and the resource-read
handler.  The HTTP transport itself is modelled as an oracle
`Request → HttpResult` standing for the remote API; everything up to and
after that boundary is translated from the source.
-/

/-- A decoded JSON value, as produced by deserializing a tool-call
argument object and as carried in outbound request payloads
(Python `Any` values flowing through `server.py`). -/
inductive Json where
  | null
  | bool (b : Bool)
  | num (n : Int)
  | str (s : String)
  | arr (xs : List Json)
  | obj (fields : List (String × Json))

/-- Lookup of `key` in the decoded argument object. A JSON `null` value
deserializes to Python `None`, which the `arguments.get(key)` calls in
`handle_call_tool` cannot distinguish from an absent key, so both map
to `none` here. -/
def pyGet (args : List (String × Json)) (key : String) : Option Json :=
  match args.lookup key with
  | some Json.null => none
  | v => v

/-- Models `arguments.get(key, default)` for the parameters the source
annotates as `str`.  The modelled domain is schema-conforming calls in
which such an argument, when present, is a JSON string. -/
def argString (args : List (String × Json)) (key dflt : String) : String :=
  match pyGet args key with
  | some (Json.str s) => s
  | _ => dflt

/-- Models `arguments.get(key)` for optional `str`-annotated parameters
(present string value, or absent). -/
def argOptString (args : List (String × Json)) (key : String) : Option String :=
  match pyGet args key with
  | some (Json.str s) => some s
  | _ => none

/-- Models `arguments.get(key, default)` for `bool`-annotated parameters. -/
def argBool (args : List (String × Json)) (key : String) (dflt : Bool) : Bool :=
  match pyGet args key with
  | some (Json.bool b) => b
  | _ => dflt

/-- Models `arguments.get(key)` for optional `bool`-annotated parameters. -/
def argOptBool (args : List (String × Json)) (key : String) : Option Bool :=
  match pyGet args key with
  | some (Json.bool b) => some b
  | _ => none

/-- Models `arguments.get(key)` for optional `int`-annotated parameters. -/
def argOptInt (args : List (String × Json)) (key : String) : Option Int :=
  match pyGet args key with
  | some (Json.num n) => some n
  | _ => none

/-- Models `arguments.get(key)` for `list`-annotated parameters (the
`attachments` argument of `set_memo_attachments`): `none` when the key
is missing, the element list when a JSON array is supplied. -/
def argArr (args : List (String × Json)) (key : String) : Option (List Json) :=
  match pyGet args key with
  | some (Json.arr xs) => some xs
  | _ => none

/-- The process-wide configuration read from the environment at startup:
`MEMOS_BASE_URL` and `MEMOS_API_KEY` (both default to the empty string). -/
structure Config where
  baseUrl : String
  apiKey : String

/-- Embeds `get_headers` (src/server.py lines 32-39): a dict holding
`Content-Type: application/json`, plus `Authorization: Bearer {key}`
when `MEMOS_API_KEY` is truthy, i.e. a non-empty string. -/
def get_headers (cfg : Config) : List (String × String) :=
  [("Content-Type", "application/json")]
    ++ (if cfg.apiKey = "" then [] else [("Authorization", "Bearer " ++ cfg.apiKey)])

/-- Models `urljoin(MEMOS_BASE_URL.rstrip("/") + "/", path)` for an
absolute base URL and the relative API paths used by the server, where
the join is string concatenation after stripping trailing slashes. -/
def api_url (cfg : Config) (path : String) : String :=
  (cfg.baseUrl.dropRightWhile (· = '/')) ++ "/" ++ path

/-- Embeds one `if x is not None: payload[key] = x` (or the analogous
query-parameter insertion) from the request builders: the singleton
entry when the field was supplied, nothing otherwise. -/
def optEntry {β : Type} (key : String) : Option β → List (String × β)
  | some v => [(key, v)]
  | none => []

/-- Embeds Python `str.split(sep)` for a one-character separator:
splits at every occurrence of the separator, keeping empty pieces, and
always returns at least one piece. -/
def pySplit (sep : Char) : List Char → List (List Char)
  | [] => [[]]
  | c :: cs =>
    match pySplit sep cs with
    | [] => [[]]
    | piece :: rest => if c = sep then [] :: piece :: rest else (c :: piece) :: rest

/-- Embeds `format_memo_id` (src/server.py lines 1013-1026): when the
input starts with the literal prefix `memos/` it returns the last
`/`-separated component, `memo_id.split("/")[-1]`; any other input is
returned unchanged. -/
def format_memo_id (memo_id : String) : String :=
  if "memos/".toList.isPrefixOf memo_id.toList then
    String.mk ((pySplit '/' memo_id.toList).getLastD [])
  else memo_id

/-- Embeds the inline attachment-ID normalization repeated in the
`get_attachment`, `update_attachment` and `delete_attachment` branches
of `handle_call_tool` (e.g. lines 1232-1233): strip an `attachments/`
prefix by taking the last `/`-separated component. -/
def format_attachment_id (attachment_id : String) : String :=
  if "attachments/".toList.isPrefixOf attachment_id.toList then
    String.mk ((pySplit '/' attachment_id.toList).getLastD [])
  else attachment_id

/-- Embeds the payload construction of `create_memo` (src/server.py
lines 78-104): `content`, prefixed `visibility` and `state` always
present, `pinned` only when true, and each optional field copied
verbatim under its API-facing key only when supplied. -/
def create_memo_payload (content visibility state : String) (pinned : Bool)
    (name create_time update_time display_time attachments relations property location :
      Option Json) : List (String × Json) :=
  [("content", Json.str content),
   ("visibility", Json.str ("VISIBILITY_" ++ visibility)),
   ("state", Json.str ("STATE_" ++ state))]
  ++ (if pinned then [("pinned", Json.bool pinned)] else [])
  ++ optEntry "name" name
  ++ optEntry "createTime" create_time
  ++ optEntry "updateTime" update_time
  ++ optEntry "displayTime" display_time
  ++ optEntry "attachments" attachments
  ++ optEntry "relations" relations
  ++ optEntry "property" property
  ++ optEntry "location" location

/-- Embeds the payload construction of `update_memo` (src/server.py
lines 228-250): every field is optional and is inserted under its
API-facing key only when supplied, with the visibility/state enum
prefixes applied. -/
def update_memo_payload (content visibility state : Option String) (pinned : Option Bool)
    (create_time update_time display_time attachments relations property location :
      Option Json) : List (String × Json) :=
  optEntry "content" (content.map Json.str)
  ++ optEntry "visibility" (visibility.map fun v => Json.str ("VISIBILITY_" ++ v))
  ++ optEntry "state" (state.map fun s => Json.str ("STATE_" ++ s))
  ++ optEntry "pinned" (pinned.map Json.bool)
  ++ optEntry "createTime" create_time
  ++ optEntry "updateTime" update_time
  ++ optEntry "displayTime" display_time
  ++ optEntry "attachments" attachments
  ++ optEntry "relations" relations
  ++ optEntry "property" property
  ++ optEntry "location" location

/-- Embeds the payload construction of `update_attachment`
(src/server.py lines 497-507): each optional field inserted only when
supplied, `external_link` under its camelCase API key. -/
def update_attachment_payload (filename type content external_link memo : Option String) :
    List (String × Json) :=
  optEntry "filename" (filename.map Json.str)
  ++ optEntry "type" (type.map Json.str)
  ++ optEntry "content" (content.map Json.str)
  ++ optEntry "externalLink" (external_link.map Json.str)
  ++ optEntry "memo" (memo.map Json.str)

/-- Embeds the query-parameter construction of `list_memos`
(src/server.py lines 144-157), with the integer page size and the
boolean `showDeleted` rendered the way they are serialized on the wire
(`"true"`/`"false"` literals per the source). -/
def list_memos_params (page_size : Option Int) (page_token state order_by filter : Option String)
    (show_deleted : Option Bool) : List (String × String) :=
  optEntry "pageSize" (page_size.map toString)
  ++ optEntry "pageToken" page_token
  ++ optEntry "state" (state.map fun s => "STATE_" ++ s)
  ++ optEntry "orderBy" order_by
  ++ optEntry "filter" filter
  ++ optEntry "showDeleted" (show_deleted.map fun b => if b then "true" else "false")

/-- Embeds the query-parameter construction of `list_attachments`
(src/server.py lines 447-455). -/
def list_attachments_params (page_size : Option Int)
    (page_token filter order_by : Option String) : List (String × String) :=
  optEntry "pageSize" (page_size.map toString)
  ++ optEntry "pageToken" page_token
  ++ optEntry "filter" filter
  ++ optEntry "orderBy" order_by

/-- Embeds the query-parameter construction of `list_memo_attachments`
(src/server.py lines 299-303). -/
def list_memo_attachments_params (page_size : Option Int) (page_token : Option String) :
    List (String × String) :=
  optEntry "pageSize" (page_size.map toString)
  ++ optEntry "pageToken" page_token

/-- HTTP method of an outbound request. -/
inductive Method where
  | get
  | post
  | patch
  | delete
deriving DecidableEq

/-- An outbound HTTP request as assembled by the request builders:
method, target URL, query parameters, optional JSON body, and headers. -/
structure Request where
  method : Method
  url : String
  params : List (String × String)
  body : Option (List (String × Json))
  headers : List (String × String)

/-- Outcome of performing one outbound request (`client.<method>` plus
`response.raise_for_status()`): a 2xx response with its decoded JSON
body, a raised `httpx.HTTPStatusError` carrying
`e.response.status_code`, `e.response.text` and the library-formatted
`str(e)`, or any other raised exception carrying its `str(e)`. -/
inductive HttpResult where
  | ok (body : Json)
  | httpStatusError (status : Nat) (text : String) (msg : String)
  | exc (msg : String)

mutual

/-- Models `json.dumps(..., indent=2, ensure_ascii=False)` up to
whitespace and string escaping; no verified property depends on the
exact rendering, only on it being some fixed serialization. -/
def json_dumps : Json → String
  | Json.null => "null"
  | Json.bool b => cond b "true" "false"
  | Json.num n => toString n
  | Json.str s => "\"" ++ s ++ "\""
  | Json.arr xs => "[" ++ String.intercalate ", " (json_dumps_list xs) ++ "]"
  | Json.obj fs => "\x7b" ++ String.intercalate ", " (json_dumps_fields fs) ++ "\x7d"

/-- Serialization of a JSON array's elements. -/
def json_dumps_list : List Json → List String
  | [] => []
  | x :: xs => json_dumps x :: json_dumps_list xs

/-- Serialization of a JSON object's fields. -/
def json_dumps_fields : List (String × Json) → List String
  | [] => []
  | (k, v) :: fs => ("\"" ++ k ++ "\": " ++ json_dumps v) :: json_dumps_fields fs
end

/-- Request-building part of `create_memo` (src/server.py lines 76-112);
the send itself is performed by the executor oracle. -/
def create_memo_request (cfg : Config) (content visibility state : String) (pinned : Bool)
    (name create_time update_time display_time attachments relations property location :
      Option Json) : Request :=
  { method := Method.post
    url := api_url cfg "api/v1/memos"
    params := []
    body := some (create_memo_payload content visibility state pinned name create_time
      update_time display_time attachments relations property location)
    headers := get_headers cfg }

/-- Request-building part of `list_memos` (src/server.py lines 142-165). -/
def list_memos_request (cfg : Config) (page_size : Option Int)
    (page_token state order_by filter : Option String) (show_deleted : Option Bool) : Request :=
  { method := Method.get
    url := api_url cfg "api/v1/memos"
    params := list_memos_params page_size page_token state order_by filter show_deleted
    body := none
    headers := get_headers cfg }

/-- Request-building part of `get_memo` (src/server.py lines 170-189). -/
def get_memo_request (cfg : Config) (memo_id : String) : Request :=
  { method := Method.get
    url := api_url cfg ("api/v1/memos/" ++ memo_id)
    params := []
    body := none
    headers := get_headers cfg }

/-- Request-building part of `update_memo` (src/server.py lines 226-258). -/
def update_memo_request (cfg : Config) (memo_id : String)
    (content visibility state : Option String) (pinned : Option Bool)
    (create_time update_time display_time attachments relations property location :
      Option Json) : Request :=
  { method := Method.patch
    url := api_url cfg ("api/v1/memos/" ++ memo_id)
    params := []
    body := some (update_memo_payload content visibility state pinned create_time update_time
      display_time attachments relations property location)
    headers := get_headers cfg }

/-- Request-building part of `delete_memo` (src/server.py lines 263-278). -/
def delete_memo_request (cfg : Config) (memo_id : String) : Request :=
  { method := Method.delete
    url := api_url cfg ("api/v1/memos/" ++ memo_id)
    params := []
    body := none
    headers := get_headers cfg }

/-- Request-building part of `list_memo_attachments` (src/server.py
lines 281-312). -/
def list_memo_attachments_request (cfg : Config) (memo_id : String) (page_size : Option Int)
    (page_token : Option String) : Request :=
  { method := Method.get
    url := api_url cfg ("api/v1/memos/" ++ memo_id ++ "/attachments")
    params := list_memo_attachments_params page_size page_token
    body := none
    headers := get_headers cfg }

/-- Request-building part of `set_memo_attachments` (src/server.py
lines 316-352): a PATCH whose body reconstructs the qualified resource
name from the (already normalized) memo ID and carries the full
replacement attachment list. -/
def set_memo_attachments_request (cfg : Config) (memo_id : String)
    (attachments : List Json) : Request :=
  { method := Method.patch
    url := api_url cfg ("api/v1/memos/" ++ memo_id ++ "/attachments")
    params := []
    body := some [("name", Json.str ("memos/" ++ memo_id)),
                  ("attachments", Json.arr attachments)]
    headers := get_headers cfg }

/-- Request-building part of `create_attachment` (src/server.py lines
355-402): optional `attachmentId` appended directly to the URL as a
query string, optional body fields inserted only when supplied. -/
def create_attachment_request (cfg : Config) (filename type : String)
    (attachment_id content external_link memo : Option String) : Request :=
  { method := Method.post
    url := (api_url cfg "api/v1/attachments")
      ++ (match attachment_id with
          | some a => "?attachmentId=" ++ a
          | none => "")
    params := []
    body := some ([("filename", Json.str filename), ("type", Json.str type)]
      ++ optEntry "content" (content.map Json.str)
      ++ optEntry "externalLink" (external_link.map Json.str)
      ++ optEntry "memo" (memo.map Json.str))
    headers := get_headers cfg }

/-- Request-building part of `get_attachment` (src/server.py lines
405-424). -/
def get_attachment_request (cfg : Config) (attachment_id : String) : Request :=
  { method := Method.get
    url := api_url cfg ("api/v1/attachments/" ++ attachment_id)
    params := []
    body := none
    headers := get_headers cfg }

/-- Request-building part of `list_attachments` (src/server.py lines
427-465). -/
def list_attachments_request (cfg : Config) (page_size : Option Int)
    (page_token filter order_by : Option String) : Request :=
  { method := Method.get
    url := api_url cfg "api/v1/attachments"
    params := list_attachments_params page_size page_token filter order_by
    body := none
    headers := get_headers cfg }

/-- Request-building part of `update_attachment` (src/server.py lines
468-517): `updateMask` appended directly to the URL as a query string. -/
def update_attachment_request (cfg : Config) (attachment_id update_mask : String)
    (filename type content external_link memo : Option String) : Request :=
  { method := Method.patch
    url := (api_url cfg ("api/v1/attachments/" ++ attachment_id))
      ++ "?updateMask=" ++ update_mask
    params := []
    body := some (update_attachment_payload filename type content external_link memo)
    headers := get_headers cfg }

/-- Request-building part of `delete_attachment` (src/server.py lines
520-535). -/
def delete_attachment_request (cfg : Config) (attachment_id : String) : Request :=
  { method := Method.delete
    url := api_url cfg ("api/v1/attachments/" ++ attachment_id)
    params := []
    body := none
    headers := get_headers cfg }

/-- The outcome of one tool call at the dispatcher boundary: the
outbound requests actually issued (empty when validation fails or the
tool is unknown, a singleton otherwise) and the text of the single
`TextContent` block returned to the caller. -/
structure ToolCallResult where
  requests : List Request
  response : String

/-- A fail-fast validation (or unknown-tool) response: no request is
issued and the given text is returned. -/
def no_request_response (msg : String) : ToolCallResult :=
  { requests := [], response := msg }

/-- Issues `req` through the executor oracle and renders the outcome as
the dispatcher does: the branch-specific success rendering `onOk` for a
2xx result, and the two `except` clauses of `handle_call_tool`
(src/server.py lines 1314-1322) otherwise — `HTTP Error {code}: {body}`
for a raised `httpx.HTTPStatusError`, `Error: {str(e)}` for any other
raised exception. -/
def executed_call (req : Request) (exec : Request → HttpResult)
    (onOk : Json → String) : ToolCallResult :=
  { requests := [req]
    response :=
      match exec req with
      | HttpResult.ok body => onOk body
      | HttpResult.httpStatusError status text _ => "HTTP Error " ++ toString status ++ ": " ++ text
      | HttpResult.exc msg => "Error: " ++ msg }

/-- Embeds `handle_call_tool` (src/server.py lines 1029-1322): per tool
name, extract the arguments the source reads, fail fast on the source's
validation checks, normalize identifiers, build the request via the
matching builder, issue it through the executor oracle, and render the
result (pretty-printed JSON for reads, a confirmation string for
delete/set operations) or the caught error.  The local variables of the
source branches are inlined at their use sites. -/
def handle_call_tool (cfg : Config) (exec : Request → HttpResult) (name : String)
    (arguments : List (String × Json)) : ToolCallResult :=
  if name = "create_memo" then
    if argString arguments "content" "" = "" then
      no_request_response "Error: content is required"
    else
      executed_call (create_memo_request cfg (argString arguments "content" "")
        (argString arguments "visibility" "PRIVATE") (argString arguments "state" "NORMAL")
        (argBool arguments "pinned" false) (pyGet arguments "name")
        (pyGet arguments "createTime") (pyGet arguments "updateTime")
        (pyGet arguments "displayTime") (pyGet arguments "attachments")
        (pyGet arguments "relations") (pyGet arguments "property")
        (pyGet arguments "location")) exec json_dumps
  else if name = "list_memos" then
    executed_call (list_memos_request cfg (argOptInt arguments "pageSize")
      (argOptString arguments "pageToken") (argOptString arguments "state")
      (argOptString arguments "orderBy") (argOptString arguments "filter")
      (argOptBool arguments "showDeleted")) exec json_dumps
  else if name = "get_memo" then
    if argString arguments "memoId" "" = "" then
      no_request_response "Error: memo_id is required"
    else
      executed_call (get_memo_request cfg (format_memo_id (argString arguments "memoId" "")))
        exec json_dumps
  else if name = "update_memo" then
    if argString arguments "memoId" "" = "" then
      no_request_response "Error: memo_id is required"
    else
      executed_call (update_memo_request cfg (format_memo_id (argString arguments "memoId" ""))
        (argOptString arguments "content") (argOptString arguments "visibility")
        (argOptString arguments "state") (argOptBool arguments "pinned")
        (pyGet arguments "createTime") (pyGet arguments "updateTime")
        (pyGet arguments "displayTime") (pyGet arguments "attachments")
        (pyGet arguments "relations") (pyGet arguments "property")
        (pyGet arguments "location")) exec json_dumps
  else if name = "delete_memo" then
    if argString arguments "memoId" "" = "" then
      no_request_response "Error: memo_id is required"
    else
      executed_call (delete_memo_request cfg (format_memo_id (argString arguments "memoId" "")))
        exec (fun _ => "Successfully deleted memo: " ++ argString arguments "memoId" "")
  else if name = "list_memo_attachments" then
    if argString arguments "memo_id" "" = "" then
      no_request_response "Error: memo_id is required"
    else
      executed_call (list_memo_attachments_request cfg
        (format_memo_id (argString arguments "memo_id" "")) (argOptInt arguments "pageSize")
        (argOptString arguments "pageToken")) exec json_dumps
  else if name = "set_memo_attachments" then
    if argString arguments "memoId" "" = "" then
      no_request_response "Error: memo_id is required"
    else
      match argArr arguments "attachments" with
      | none => no_request_response "Error: attachments is required"
      | some xs =>
        executed_call (set_memo_attachments_request cfg
          (format_memo_id (argString arguments "memoId" "")) xs) exec
          (fun _ => "Successfully set " ++ toString xs.length ++
            " attachment(s) for memo: " ++ argString arguments "memoId" "")
  else if name = "create_attachment" then
    if argString arguments "filename" "" = "" then
      no_request_response "Error: filename is required"
    else if argString arguments "type" "" = "" then
      no_request_response "Error: type is required"
    else
      executed_call (create_attachment_request cfg (argString arguments "filename" "")
        (argString arguments "type" "") (argOptString arguments "attachmentId")
        (argOptString arguments "content") (argOptString arguments "externalLink")
        (argOptString arguments "memo")) exec json_dumps
  else if name = "get_attachment" then
    if argString arguments "attachmentId" "" = "" then
      no_request_response "Error: attachment_id is required"
    else
      executed_call (get_attachment_request cfg
        (format_attachment_id (argString arguments "attachmentId" ""))) exec json_dumps
  else if name = "list_attachments" then
    executed_call (list_attachments_request cfg (argOptInt arguments "pageSize")
      (argOptString arguments "pageToken") (argOptString arguments "filter")
      (argOptString arguments "orderBy")) exec json_dumps
  else if name = "update_attachment" then
    if argString arguments "attachmentId" "" = "" then
      no_request_response "Error: attachment_id is required"
    else if argString arguments "updateMask" "" = "" then
      no_request_response "Error: update_mask is required"
    else
      executed_call (update_attachment_request cfg
        (format_attachment_id (argString arguments "attachmentId" ""))
        (argString arguments "updateMask" "") (argOptString arguments "filename")
        (argOptString arguments "type") (argOptString arguments "content")
        (argOptString arguments "externalLink") (argOptString arguments "memo")) exec json_dumps
  else if name = "delete_attachment" then
    if argString arguments "attachmentId" "" = "" then
      no_request_response "Error: attachment_id is required"
    else
      executed_call (delete_attachment_request cfg
        (format_attachment_id (argString arguments "attachmentId" ""))) exec
        (fun _ => "Successfully deleted attachment: " ++
          format_attachment_id (argString arguments "attachmentId" ""))
  else
    no_request_response ("Unknown tool: " ++ name)


/-- Embeds `handle_read_resource` (src/server.py lines 557-573).  A
returned string is `Except.ok`; the `raise ValueError(...)` on an
unknown URI is `Except.error`, an exception leaving the handler for the
protocol layer.  For the `memos://memos` URI the inner try/except
renders any failure of the list call as `{"error": str(e)}`. -/
def handle_read_resource (cfg : Config) (exec : Request → HttpResult) (uri : String) :
    Except String String :=
  if uri = "memos://memos" then
    Except.ok
      (match exec (list_memos_request cfg (some 100) none none none none none) with
       | HttpResult.ok body => json_dumps body
       | HttpResult.httpStatusError _ _ msg => json_dumps (Json.obj [("error", Json.str msg)])
       | HttpResult.exc msg => json_dumps (Json.obj [("error", Json.str msg)]))
  else if uri = "memos://config" then
    Except.ok (json_dumps (Json.obj [("base_url", Json.str cfg.baseUrl),
      ("has_api_key", Json.bool (cfg.apiKey ≠ ""))]))
  else
    Except.error ("Unknown resource: " ++ uri)

/-- The `(name, inputSchema.required)` projection of each `Tool`
returned by `handle_list_tools` (src/server.py lines 576-1010): the
published tool names with their schema-declared required-argument
lists.  The remaining schema text (descriptions, property types,
defaults) does not affect any behavior modelled here. -/
def tool_catalog : List (String × List String) :=
  [("create_memo", ["content"]),
   ("list_memos", []),
   ("get_memo", ["memo_id"]),
   ("update_memo", ["memo_id"]),
   ("delete_memo", ["memo_id"]),
   ("list_memo_attachments", ["memoId"]),
   ("set_memo_attachments", ["memoId", "attachments"]),
   ("create_attachment", ["filename", "type"]),
   ("get_attachment", ["attachmentId"]),
   ("list_attachments", []),
   ("update_attachment", ["attachmentId", "updateMask"]),
   ("delete_attachment", ["attachmentId"])]

/-- The substring relation used to state what an error text reports. -/
def containsSub (s sub : String) : Prop := ∃ l r, s = l ++ sub ++ r

theorem lookup_optEntry {β : Type} (k k2 : String) (v : Option β) :
    (optEntry k2 v).lookup k = if k = k2 then v else none := by
  cases v with
  | none => simp [optEntry, List.lookup]
  | some b =>
    by_cases h : k = k2
    · subst h
      simp [optEntry, List.lookup]
    · have hb : (k == k2) = false := beq_eq_false_iff_ne.mpr h
      simp [optEntry, List.lookup, hb, h]

theorem pySplit_ne_nil (sep : Char) (cs : List Char) : pySplit sep cs ≠ [] := by
  cases cs with
  | nil => simp [pySplit]
  | cons c cs =>
    rw [pySplit]
    cases pySplit sep cs with
    | nil => simp
    | cons p r => by_cases hc : c = sep <;> simp [hc]

theorem sep_not_mem_pySplit_getLastD (sep : Char) (cs : List Char) :
    sep ∉ (pySplit sep cs).getLastD [] := by
  induction cs with
  | nil => simp [pySplit]
  | cons c cs ih =>
    rw [pySplit]
    cases h : pySplit sep cs with
    | nil => exact absurd h (pySplit_ne_nil sep cs)
    | cons p r =>
      rw [h] at ih
      rw [List.getLastD_cons] at ih
      dsimp only
      by_cases hc : c = sep
      · rw [if_pos hc, List.getLastD_cons, List.getLastD_cons]
        exact ih
      · rw [if_neg hc]
        cases r with
        | nil =>
          rw [List.getLastD_cons, List.getLastD_nil]
          rw [List.getLastD_nil] at ih
          intro hmem
          rcases List.mem_cons.mp hmem with h1 | h2
          · exact hc h1.symm
          · exact ih h2
        | cons q qs =>
          rw [List.getLastD_cons, List.getLastD_cons]
          rw [List.getLastD_cons] at ih
          exact ih

theorem isPrefixOf_mem {pre l : List Char} (h : pre.isPrefixOf l) (hm : '/' ∈ pre) :
    '/' ∈ l :=
  (List.isPrefixOf_iff_prefix.mp h).subset hm

/-- C8: identifier normalization is a pure total function (`format_memo_id`
is a total Lean function): `memos/42` normalizes to `42`, the bare `42`
is left unchanged, any input without the `memos/` resource-type prefix
is returned unchanged, and normalizing twice equals normalizing once on
every input string. -/
theorem format_memo_id_normalization :
    format_memo_id "memos/42" = "42" ∧
    format_memo_id "42" = "42" ∧
    (∀ s : String, "memos/".toList.isPrefixOf s.toList = false → format_memo_id s = s) ∧
    (∀ s : String, format_memo_id (format_memo_id s) = format_memo_id s) := by
  refine ⟨by decide, by decide, ?_, ?_⟩
  · intro s h
    have h2 : ¬("memos/".toList.isPrefixOf s.toList = true) := by rw [h]; decide
    rw [format_memo_id, if_neg h2]
  · intro s
    by_cases h : "memos/".toList.isPrefixOf s.toList
    · have hne : ¬("memos/".toList.isPrefixOf
          (String.mk ((pySplit '/' s.toList).getLastD [])).toList = true) := by
        intro hpre
        exact sep_not_mem_pySplit_getLastD '/' s.toList (isPrefixOf_mem hpre (by decide))
      have e1 : format_memo_id s = String.mk ((pySplit '/' s.toList).getLastD []) := by
        rw [format_memo_id, if_pos h]
      rw [e1, format_memo_id, if_neg hne]
    · have e : format_memo_id s = s := by rw [format_memo_id, if_neg h]
      rw [e]
      exact e

/-- Witness for C8 at the concrete unmatched input `abc`. -/
theorem format_memo_id_normalization_witness :
    "memos/".toList.isPrefixOf "abc".toList = false ∧ format_memo_id "abc" = "abc" :=
  ⟨by decide, format_memo_id_normalization.2.2.1 "abc" (by decide)⟩

/-- C2: for both update operations the outbound JSON body contains
exactly the fields the caller supplied: each supplied optional field
appears under its API-facing key (with the enum transforms applied),
each unsupplied field is entirely absent from the body, and no key
outside the declared field set ever appears. -/
theorem update_payloads_exactly_supplied :
    ∀ (content visibility state : Option String) (pinned : Option Bool)
      (create_time update_time display_time attachments relations property location : Option Json)
      (filename type acontent external_link amemo : Option String),
      let pm := update_memo_payload content visibility state pinned create_time update_time
        display_time attachments relations property location
      let pa := update_attachment_payload filename type acontent external_link amemo
      (pm.lookup "content" = content.map Json.str) ∧
      (pm.lookup "visibility" = visibility.map fun v => Json.str ("VISIBILITY_" ++ v)) ∧
      (pm.lookup "state" = state.map fun s => Json.str ("STATE_" ++ s)) ∧
      (pm.lookup "pinned" = pinned.map Json.bool) ∧
      (pm.lookup "createTime" = create_time) ∧
      (pm.lookup "updateTime" = update_time) ∧
      (pm.lookup "displayTime" = display_time) ∧
      (pm.lookup "attachments" = attachments) ∧
      (pm.lookup "relations" = relations) ∧
      (pm.lookup "property" = property) ∧
      (pm.lookup "location" = location) ∧
      (∀ k, k ∉ ["content", "visibility", "state", "pinned", "createTime", "updateTime",
          "displayTime", "attachments", "relations", "property", "location"] →
        pm.lookup k = none) ∧
      (pa.lookup "filename" = filename.map Json.str) ∧
      (pa.lookup "type" = type.map Json.str) ∧
      (pa.lookup "content" = acontent.map Json.str) ∧
      (pa.lookup "externalLink" = external_link.map Json.str) ∧
      (pa.lookup "memo" = amemo.map Json.str) ∧
      (∀ k, k ∉ ["filename", "type", "content", "externalLink", "memo"] →
        pa.lookup k = none) := by
  intro content visibility state pinned create_time update_time display_time attachments
    relations property location filename type acontent external_link amemo
  dsimp only
  refine ⟨?_, ?_, ?_, ?_, ?_, ?_, ?_, ?_, ?_, ?_, ?_, ?_, ?_, ?_, ?_, ?_, ?_, ?_⟩
  · simp [update_memo_payload, List.lookup_append, lookup_optEntry]
  · simp [update_memo_payload, List.lookup_append, lookup_optEntry]
  · simp [update_memo_payload, List.lookup_append, lookup_optEntry]
  · simp [update_memo_payload, List.lookup_append, lookup_optEntry]
  · simp [update_memo_payload, List.lookup_append, lookup_optEntry]
  · simp [update_memo_payload, List.lookup_append, lookup_optEntry]
  · simp [update_memo_payload, List.lookup_append, lookup_optEntry]
  · simp [update_memo_payload, List.lookup_append, lookup_optEntry]
  · simp [update_memo_payload, List.lookup_append, lookup_optEntry]
  · simp [update_memo_payload, List.lookup_append, lookup_optEntry]
  · simp [update_memo_payload, List.lookup_append, lookup_optEntry]
  · intro k hk
    simp only [List.mem_cons, List.not_mem_nil, or_false, not_or] at hk
    obtain ⟨h1, h2, h3, h4, h5, h6, h7, h8, h9, h10, h11⟩ := hk
    simp [update_memo_payload, List.lookup_append, lookup_optEntry,
      h1, h2, h3, h4, h5, h6, h7, h8, h9, h10, h11]
  · simp [update_attachment_payload, List.lookup_append, lookup_optEntry]
  · simp [update_attachment_payload, List.lookup_append, lookup_optEntry]
  · simp [update_attachment_payload, List.lookup_append, lookup_optEntry]
  · simp [update_attachment_payload, List.lookup_append, lookup_optEntry]
  · simp [update_attachment_payload, List.lookup_append, lookup_optEntry]
  · intro k hk
    simp only [List.mem_cons, List.not_mem_nil, or_false, not_or] at hk
    obtain ⟨h1, h2, h3, h4, h5⟩ := hk
    simp [update_attachment_payload, List.lookup_append, lookup_optEntry, h1, h2, h3, h4, h5]

/-- Witness for C2: an update-memo body with only `content` supplied
carries no `visibility` key and no undeclared key. -/
theorem update_payloads_exactly_supplied_witness :
    ((update_memo_payload (some "x") none none none none none none none none none
        none).lookup "visibility" = none) ∧
    ((update_memo_payload (some "x") none none none none none none none none none
        none).lookup "bogus" = none) := by
  have h := update_payloads_exactly_supplied (some "x") none none none none none none none
    none none none none none none none none
  exact ⟨h.2.1, h.2.2.2.2.2.2.2.2.2.2.2.1 "bogus" (by decide)⟩

/-- C6: for each list operation and each optional query parameter, an
omitted parameter is entirely absent from the outbound query-parameter
set (and a supplied one appears under its camelCase key), with no other
key ever present. -/
theorem list_params_omitted_absent :
    ∀ (ps : Option Int) (pt st ob fi : Option String) (sd : Option Bool)
      (ps2 : Option Int) (pt2 fi2 ob2 : Option String)
      (ps3 : Option Int) (pt3 : Option String),
      ((list_memos_params ps pt st ob fi sd).lookup "pageSize" = ps.map toString) ∧
      ((list_memos_params ps pt st ob fi sd).lookup "pageToken" = pt) ∧
      ((list_memos_params ps pt st ob fi sd).lookup "state" = st.map fun s => "STATE_" ++ s) ∧
      ((list_memos_params ps pt st ob fi sd).lookup "orderBy" = ob) ∧
      ((list_memos_params ps pt st ob fi sd).lookup "filter" = fi) ∧
      ((list_memos_params ps pt st ob fi sd).lookup "showDeleted" =
        sd.map fun b => if b then "true" else "false") ∧
      (∀ k, k ∉ ["pageSize", "pageToken", "state", "orderBy", "filter", "showDeleted"] →
        (list_memos_params ps pt st ob fi sd).lookup k = none) ∧
      ((list_attachments_params ps2 pt2 fi2 ob2).lookup "pageSize" = ps2.map toString) ∧
      ((list_attachments_params ps2 pt2 fi2 ob2).lookup "pageToken" = pt2) ∧
      ((list_attachments_params ps2 pt2 fi2 ob2).lookup "filter" = fi2) ∧
      ((list_attachments_params ps2 pt2 fi2 ob2).lookup "orderBy" = ob2) ∧
      (∀ k, k ∉ ["pageSize", "pageToken", "filter", "orderBy"] →
        (list_attachments_params ps2 pt2 fi2 ob2).lookup k = none) ∧
      ((list_memo_attachments_params ps3 pt3).lookup "pageSize" = ps3.map toString) ∧
      ((list_memo_attachments_params ps3 pt3).lookup "pageToken" = pt3) ∧
      (∀ k, k ∉ ["pageSize", "pageToken"] →
        (list_memo_attachments_params ps3 pt3).lookup k = none) := by
  intro ps pt st ob fi sd ps2 pt2 fi2 ob2 ps3 pt3
  refine ⟨?_, ?_, ?_, ?_, ?_, ?_, ?_, ?_, ?_, ?_, ?_, ?_, ?_, ?_, ?_⟩
  · simp [list_memos_params, List.lookup_append, lookup_optEntry]
  · simp [list_memos_params, List.lookup_append, lookup_optEntry]
  · simp [list_memos_params, List.lookup_append, lookup_optEntry]
  · simp [list_memos_params, List.lookup_append, lookup_optEntry]
  · simp [list_memos_params, List.lookup_append, lookup_optEntry]
  · simp [list_memos_params, List.lookup_append, lookup_optEntry]
  · intro k hk
    simp only [List.mem_cons, List.not_mem_nil, or_false, not_or] at hk
    obtain ⟨h1, h2, h3, h4, h5, h6⟩ := hk
    simp [list_memos_params, List.lookup_append, lookup_optEntry, h1, h2, h3, h4, h5, h6]
  · simp [list_attachments_params, List.lookup_append, lookup_optEntry]
  · simp [list_attachments_params, List.lookup_append, lookup_optEntry]
  · simp [list_attachments_params, List.lookup_append, lookup_optEntry]
  · simp [list_attachments_params, List.lookup_append, lookup_optEntry]
  · intro k hk
    simp only [List.mem_cons, List.not_mem_nil, or_false, not_or] at hk
    obtain ⟨h1, h2, h3, h4⟩ := hk
    simp [list_attachments_params, List.lookup_append, lookup_optEntry, h1, h2, h3, h4]
  · simp [list_memo_attachments_params, List.lookup_append, lookup_optEntry]
  · simp [list_memo_attachments_params, List.lookup_append, lookup_optEntry]
  · intro k hk
    simp only [List.mem_cons, List.not_mem_nil, or_false, not_or] at hk
    obtain ⟨h1, h2⟩ := hk
    simp [list_memo_attachments_params, List.lookup_append, lookup_optEntry, h1, h2]

/-- Witness for C6: with every optional parameter omitted, the
list-memos query-parameter set is empty, and in particular contains no
`pageToken` and no undeclared key. -/
theorem list_params_omitted_absent_witness :
    ((list_memos_params none none none none none none).lookup "pageToken" = none) ∧
    ((list_memos_params none none none none none none).lookup "bogus" = none) := by
  have h := list_params_omitted_absent none none none none none none none none none none
    none none
  exact ⟨h.2.1, h.2.2.2.2.2.2.1 "bogus" (by decide)⟩

/-- C7: wherever a visibility or state value is transmitted — the
create-memo body, the update-memo body, and the list-memos `state`
query parameter — the transmitted value is the input with the fixed
enum prefix applied, for every input string. -/
theorem enum_prefix_transforms :
    ∀ (v s c : String) (pinned : Bool) (n ct ut dt a r pr lo : Option Json)
      (mc : Option String) (mp : Option Bool) (uct uut udt ua ur upr ulo : Option Json)
      (ps : Option Int) (pt ob fi : Option String) (sd : Option Bool),
      ((create_memo_payload c v s pinned n ct ut dt a r pr lo).lookup "visibility" =
        some (Json.str ("VISIBILITY_" ++ v))) ∧
      ((create_memo_payload c v s pinned n ct ut dt a r pr lo).lookup "state" =
        some (Json.str ("STATE_" ++ s))) ∧
      ((update_memo_payload mc (some v) (some s) mp uct uut udt ua ur upr ulo).lookup
          "visibility" = some (Json.str ("VISIBILITY_" ++ v))) ∧
      ((update_memo_payload mc (some v) (some s) mp uct uut udt ua ur upr ulo).lookup
          "state" = some (Json.str ("STATE_" ++ s))) ∧
      ((list_memos_params ps pt (some s) ob fi sd).lookup "state" = some ("STATE_" ++ s)) := by
  intro v s c pinned n ct ut dt a r pr lo mc mp uct uut udt ua ur upr ulo ps pt ob fi sd
  refine ⟨?_, ?_, ?_, ?_, ?_⟩
  · simp [create_memo_payload, List.lookup_append, List.lookup, lookup_optEntry]
  · simp [create_memo_payload, List.lookup_append, List.lookup, lookup_optEntry]
  · cases mc <;> simp [update_memo_payload, List.lookup_append, lookup_optEntry]
  · cases mc <;> simp [update_memo_payload, List.lookup_append, lookup_optEntry]
  · simp [list_memos_params, List.lookup_append, lookup_optEntry]

/-- Case shape of one dispatcher call: either no request was issued and
some text was returned, or exactly one built request was issued through
the executor, carrying the configured headers. -/
def CallShape (cfg : Config) (exec : Request → HttpResult) (x : ToolCallResult) : Prop :=
  (∃ msg, x = no_request_response msg) ∨
  (∃ req onOk, x = executed_call req exec onOk ∧ req.headers = get_headers cfg)

set_option maxHeartbeats 1000000 in
theorem handle_call_tool_shape (cfg : Config) (exec : Request → HttpResult) (name : String)
    (args : List (String × Json)) :
    CallShape cfg exec (handle_call_tool cfg exec name args) := by
  rw [handle_call_tool]
  by_cases h1 : name = "create_memo"
  · rw [if_pos h1]
    by_cases hc1x1 : argString args "content" "" = ""
    · rw [if_pos hc1x1]
      exact Or.inl ⟨_, rfl⟩
    · rw [if_neg hc1x1]
      exact Or.inr ⟨_, _, rfl, rfl⟩
  · rw [if_neg h1]
    by_cases h2 : name = "list_memos"
    · rw [if_pos h2]
      exact Or.inr ⟨_, _, rfl, rfl⟩
    · rw [if_neg h2]
      by_cases h3 : name = "get_memo"
      · rw [if_pos h3]
        by_cases hc3x1 : argString args "memoId" "" = ""
        · rw [if_pos hc3x1]
          exact Or.inl ⟨_, rfl⟩
        · rw [if_neg hc3x1]
          exact Or.inr ⟨_, _, rfl, rfl⟩
      · rw [if_neg h3]
        by_cases h4 : name = "update_memo"
        · rw [if_pos h4]
          by_cases hc4x1 : argString args "memoId" "" = ""
          · rw [if_pos hc4x1]
            exact Or.inl ⟨_, rfl⟩
          · rw [if_neg hc4x1]
            exact Or.inr ⟨_, _, rfl, rfl⟩
        · rw [if_neg h4]
          by_cases h5 : name = "delete_memo"
          · rw [if_pos h5]
            by_cases hc5x1 : argString args "memoId" "" = ""
            · rw [if_pos hc5x1]
              exact Or.inl ⟨_, rfl⟩
            · rw [if_neg hc5x1]
              exact Or.inr ⟨_, _, rfl, rfl⟩
          · rw [if_neg h5]
            by_cases h6 : name = "list_memo_attachments"
            · rw [if_pos h6]
              by_cases hc6x1 : argString args "memo_id" "" = ""
              · rw [if_pos hc6x1]
                exact Or.inl ⟨_, rfl⟩
              · rw [if_neg hc6x1]
                exact Or.inr ⟨_, _, rfl, rfl⟩
            · rw [if_neg h6]
              by_cases h7 : name = "set_memo_attachments"
              · rw [if_pos h7]
                by_cases hc7x1 : argString args "memoId" "" = ""
                · rw [if_pos hc7x1]
                  exact Or.inl ⟨_, rfl⟩
                · rw [if_neg hc7x1]
                  cases ha : argArr args "attachments" with
                  | none => exact Or.inl ⟨_, rfl⟩
                  | some xs => exact Or.inr ⟨_, _, rfl, rfl⟩
              · rw [if_neg h7]
                by_cases h8 : name = "create_attachment"
                · rw [if_pos h8]
                  by_cases hc8x1 : argString args "filename" "" = ""
                  · rw [if_pos hc8x1]
                    exact Or.inl ⟨_, rfl⟩
                  · rw [if_neg hc8x1]
                    by_cases hc8x2 : argString args "type" "" = ""
                    · rw [if_pos hc8x2]
                      exact Or.inl ⟨_, rfl⟩
                    · rw [if_neg hc8x2]
                      exact Or.inr ⟨_, _, rfl, rfl⟩
                · rw [if_neg h8]
                  by_cases h9 : name = "get_attachment"
                  · rw [if_pos h9]
                    by_cases hc9x1 : argString args "attachmentId" "" = ""
                    · rw [if_pos hc9x1]
                      exact Or.inl ⟨_, rfl⟩
                    · rw [if_neg hc9x1]
                      exact Or.inr ⟨_, _, rfl, rfl⟩
                  · rw [if_neg h9]
                    by_cases h10 : name = "list_attachments"
                    · rw [if_pos h10]
                      exact Or.inr ⟨_, _, rfl, rfl⟩
                    · rw [if_neg h10]
                      by_cases h11 : name = "update_attachment"
                      · rw [if_pos h11]
                        by_cases hc11x1 : argString args "attachmentId" "" = ""
                        · rw [if_pos hc11x1]
                          exact Or.inl ⟨_, rfl⟩
                        · rw [if_neg hc11x1]
                          by_cases hc11x2 : argString args "updateMask" "" = ""
                          · rw [if_pos hc11x2]
                            exact Or.inl ⟨_, rfl⟩
                          · rw [if_neg hc11x2]
                            exact Or.inr ⟨_, _, rfl, rfl⟩
                      · rw [if_neg h11]
                        by_cases h12 : name = "delete_attachment"
                        · rw [if_pos h12]
                          by_cases hc12x1 : argString args "attachmentId" "" = ""
                          · rw [if_pos hc12x1]
                            exact Or.inl ⟨_, rfl⟩
                          · rw [if_neg hc12x1]
                            exact Or.inr ⟨_, _, rfl, rfl⟩
                        · rw [if_neg h12]
                          exact Or.inl ⟨_, rfl⟩

/-- C1's failing input: the published input schema for `get_memo`
requires the argument key `memo_id`, but the dispatcher reads the key
`memoId`, so a call supplying the schema-required `memo_id` with a
non-empty value is rejected with a validation error and no request is
issued, instead of proceeding to the request builder and executor. -/
theorem get_memo_schema_key_mismatch :
    tool_catalog.lookup "get_memo" = some ["memo_id"] ∧
    (∀ (cfg : Config) (exec : Request → HttpResult),
      handle_call_tool cfg exec "get_memo" [("memo_id", Json.str "5")] =
        no_request_response "Error: memo_id is required") :=
  ⟨rfl, fun _ _ => rfl⟩

/-- C3: calling `create_memo` with only `content = "hello"` issues a
POST whose body is exactly the three-field object with the default
visibility and state carrying their enum prefixes and no `pinned` or
other key present. -/
theorem create_memo_only_content_body :
    ∀ (cfg : Config) (exec : Request → HttpResult),
      ((handle_call_tool cfg exec "create_memo" [("content", Json.str "hello")]).requests =
        [create_memo_request cfg "hello" "PRIVATE" "NORMAL" false none none none none none
          none none none]) ∧
      ((create_memo_request cfg "hello" "PRIVATE" "NORMAL" false none none none none none
          none none none).method = Method.post) ∧
      ((create_memo_request cfg "hello" "PRIVATE" "NORMAL" false none none none none none
          none none none).body =
        some [("content", Json.str "hello"), ("visibility", Json.str "VISIBILITY_PRIVATE"),
          ("state", Json.str "STATE_NORMAL")]) :=
  fun _ _ => ⟨rfl, rfl, rfl⟩

/-- C4: every failure raised while executing a tool call is converted
at the dispatcher boundary into a normal text response (the dispatcher
is a total function into responses): when the remote API raised an
HTTP status error the response text contains the literal status code
and the response body, and for any other raised failure it contains the
raw failure message. -/
theorem tool_errors_rendered_as_text :
    ∀ (cfg : Config) (exec : Request → HttpResult) (name : String)
      (args : List (String × Json)),
      (∀ status text msg, (∀ r, exec r = HttpResult.httpStatusError status text msg) →
        (handle_call_tool cfg exec name args).requests ≠ [] →
        containsSub (handle_call_tool cfg exec name args).response (toString status) ∧
        containsSub (handle_call_tool cfg exec name args).response text) ∧
      (∀ msg, (∀ r, exec r = HttpResult.exc msg) →
        (handle_call_tool cfg exec name args).requests ≠ [] →
        containsSub (handle_call_tool cfg exec name args).response msg) := by
  intro cfg exec name args
  have hshape := handle_call_tool_shape cfg exec name args
  unfold CallShape at hshape
  rcases hshape with ⟨m, hm⟩ | ⟨req, onOk, hr, _⟩
  · constructor
    · intro status text msg _ hne
      rw [hm] at hne
      exact absurd rfl hne
    · intro msg _ hne
      rw [hm] at hne
      exact absurd rfl hne
  · constructor
    · intro status text msg hf _
      rw [hr]
      unfold executed_call
      rw [hf req]
      constructor
      · exact ⟨"HTTP Error ", ": " ++ text, by simp [String.append_assoc]⟩
      · exact ⟨"HTTP Error " ++ toString status ++ ": ", "", by simp [String.append_assoc]⟩
    · intro msg hf _
      rw [hr]
      unfold executed_call
      rw [hf req]
      exact ⟨"Error: ", "", by simp⟩

/-- Witness for C4 at the concrete 404 case of `get_attachment`. -/
theorem tool_errors_rendered_as_text_witness :
    containsSub (handle_call_tool ⟨"http://example.com", ""⟩
      (fun _ => HttpResult.httpStatusError 404 "attachment not found" "boom")
      "get_attachment" [("attachmentId", Json.str "7")]).response "404" ∧
    containsSub (handle_call_tool ⟨"http://example.com", ""⟩
      (fun _ => HttpResult.httpStatusError 404 "attachment not found" "boom")
      "get_attachment" [("attachmentId", Json.str "7")]).response "attachment not found" := by
  have h := (tool_errors_rendered_as_text ⟨"http://example.com", ""⟩
      (fun _ => HttpResult.httpStatusError 404 "attachment not found" "boom")
      "get_attachment" [("attachmentId", Json.str "7")]).1 404 "attachment not found" "boom"
      (fun _ => rfl) (fun hc => List.cons_ne_nil _ _ hc)
  exact h

/-- C5 counterexample: on the unrecognized resource URI the read
handler does not return a normal response; it raises (modelled as
`Except.error`) the `ValueError` naming the resource. -/
theorem unknown_resource_raises_counterexample :
    handle_read_resource ⟨"http://example.com", ""⟩ (fun _ => HttpResult.exc "io")
      "memos://nope" = Except.error "Unknown resource: memos://nope" := rfl

/-- C5 (amended): an unrecognized tool name yields a normal text
response naming the tool and issues no request; an unrecognized
resource URI makes the read handler raise a `ValueError` naming the
resource, which leaves the handler as an exception rather than as a
returned value. -/
theorem unknown_tool_text_unknown_resource_raise :
    ∀ (cfg : Config) (exec : Request → HttpResult) (name uri : String)
      (args : List (String × Json)),
      (name ∉ tool_catalog.map Prod.fst →
        handle_call_tool cfg exec name args =
          no_request_response ("Unknown tool: " ++ name)) ∧
      (uri ≠ "memos://memos" → uri ≠ "memos://config" →
        handle_read_resource cfg exec uri = Except.error ("Unknown resource: " ++ uri)) := by
  intro cfg exec name uri args
  constructor
  · intro hn
    simp only [tool_catalog, List.map_cons, List.map_nil, List.mem_cons,
      List.not_mem_nil, or_false, not_or] at hn
    obtain ⟨h1, h2, h3, h4, h5, h6, h7, h8, h9, h10, h11, h12⟩ := hn
    rw [handle_call_tool, if_neg h1, if_neg h2, if_neg h3, if_neg h4, if_neg h5, if_neg h6,
      if_neg h7, if_neg h8, if_neg h9, if_neg h10, if_neg h11, if_neg h12]
  · intro h1 h2
    rw [handle_read_resource, if_neg h1, if_neg h2]

/-- Witness for C5 at a concrete unknown tool and unknown resource. -/
theorem unknown_tool_text_unknown_resource_raise_witness :
    (handle_call_tool ⟨"http://example.com", ""⟩ (fun _ => HttpResult.exc "io")
      "frobnicate" [] = no_request_response "Unknown tool: frobnicate") ∧
    (handle_read_resource ⟨"http://example.com", ""⟩ (fun _ => HttpResult.exc "io")
      "memos://other" = Except.error "Unknown resource: memos://other") := by
  have h := unknown_tool_text_unknown_resource_raise ⟨"http://example.com", ""⟩
    (fun _ => HttpResult.exc "io") "frobnicate" "memos://other" []
  exact ⟨h.1 (by decide), h.2 (by decide) (by decide)⟩

/-- C9: with no API key configured the header set of every outbound
request contains no Authorization entry at all while still carrying
Content-Type, and with a non-empty key it is exactly `Bearer {key}`;
every request the dispatcher issues carries this header set. -/
theorem auth_header_presence :
    ∀ (base key : String),
      (key = "" → get_headers ⟨base, key⟩ = [("Content-Type", "application/json")]) ∧
      (key = "" → (get_headers ⟨base, key⟩).lookup "Authorization" = none) ∧
      (key ≠ "" → get_headers ⟨base, key⟩ =
        [("Content-Type", "application/json"), ("Authorization", "Bearer " ++ key)]) ∧
      (∀ (cfg : Config) (exec : Request → HttpResult) (name : String)
        (args : List (String × Json)) (req : Request),
        req ∈ (handle_call_tool cfg exec name args).requests →
        req.headers = get_headers cfg) := by
  intro base key
  refine ⟨?_, ?_, ?_, ?_⟩
  · intro h
    simp [get_headers, h]
  · intro h
    simp [get_headers, h, List.lookup]
  · intro h
    simp [get_headers, h]
  · intro cfg exec name args req hreq
    have hshape := handle_call_tool_shape cfg exec name args
    unfold CallShape at hshape
    rcases hshape with ⟨m, hm⟩ | ⟨r0, onOk, hr, hh⟩
    · rw [hm] at hreq
      exact absurd hreq (List.not_mem_nil req)
    · rw [hr] at hreq
      have : req = r0 := List.mem_singleton.mp hreq
      rw [this]
      exact hh

/-- Witness for C9 with no key and with key `k1`. -/
theorem auth_header_presence_witness :
    (get_headers ⟨"http://example.com", ""⟩ = [("Content-Type", "application/json")]) ∧
    (get_headers ⟨"http://example.com", "k1"⟩ =
      [("Content-Type", "application/json"), ("Authorization", "Bearer k1")]) := by
  exact ⟨(auth_header_presence "http://example.com" "").1 rfl,
    (auth_header_presence "http://example.com" "k1").2.2.1 (by decide)⟩

/-- C10: `set_memo_attachments` with a valid `memoId` and an empty
`attachments` list passes validation (only a missing `attachments` key
is rejected): one PATCH is issued whose body is exactly the
reconstructed resource name plus the empty attachment list, and on
success the response reports zero attachments set, naming the caller's
original `memoId`. -/
theorem set_memo_attachments_empty_list :
    ∀ (cfg : Config) (exec : Request → HttpResult) (body : Json),
      exec (set_memo_attachments_request cfg "5" []) = HttpResult.ok body →
      (handle_call_tool cfg exec "set_memo_attachments"
          [("memoId", Json.str "memos/5"), ("attachments", Json.arr [])] =
        { requests := [set_memo_attachments_request cfg "5" []]
          response := "Successfully set 0 attachment(s) for memo: memos/5" }) ∧
      ((set_memo_attachments_request cfg "5" []).method = Method.patch) ∧
      ((set_memo_attachments_request cfg "5" []).body =
        some [("name", Json.str "memos/5"), ("attachments", Json.arr [])]) ∧
      (handle_call_tool cfg exec "set_memo_attachments" [("memoId", Json.str "memos/5")] =
        no_request_response "Error: attachments is required") := by
  intro cfg exec body h
  refine ⟨?_, rfl, rfl, rfl⟩
  have e1 : handle_call_tool cfg exec "set_memo_attachments"
      [("memoId", Json.str "memos/5"), ("attachments", Json.arr [])] =
      executed_call (set_memo_attachments_request cfg "5" []) exec
        (fun _ => "Successfully set 0 attachment(s) for memo: memos/5") := rfl
  rw [e1]
  unfold executed_call
  rw [h]

/-- Witness for C10 at a concrete configuration and a succeeding
executor. -/
theorem set_memo_attachments_empty_list_witness :
    (handle_call_tool ⟨"http://example.com", ""⟩ (fun _ => HttpResult.ok Json.null)
        "set_memo_attachments"
        [("memoId", Json.str "memos/5"), ("attachments", Json.arr [])]).response =
      "Successfully set 0 attachment(s) for memo: memos/5" := by
  have h := set_memo_attachments_empty_list ⟨"http://example.com", ""⟩
    (fun _ => HttpResult.ok Json.null) Json.null rfl
  exact congrArg ToolCallResult.response h.1
